import Mathlib

/-!
Verification of the result-monad repository: a shallow embedding of the
`Result` algebra and the fluent `Validator` (src/validation.ts), with the
claims of the specification settled as theorems.

The snapshot of the repository contains `src/validation.ts` together with the
test files `result.test.ts` and `errors.test.ts`; the implementation files
`result.ts` and `errors.ts` themselves are not present, so the `Result`
algebra and the error classes are modelled from the specification (and the
observable behaviour pinned down by the tests).  The `Validator` embedding is
translated directly from `src/validation.ts`.
-/

/-! ## Error values

Modelled from the spec: errors are values with a `name` and a `message`
(`errors.ts` is not in the snapshot; the shapes are pinned by
`errors.test.ts`). -/

/-- Modelled from the spec: the minimal `{ name, message }` error shape that
the core requires (`errors.ts` is missing from the snapshot). -/
structure JSError where
  name : String
  message : String
deriving DecidableEq, Repr

/-- Modelled from the spec: the error produced by `Result.cancelled()`;
`errors.test.ts` pins its name and message. -/
def cancellationError : JSError :=
  { name := "CancellationError", message := "Cancellation: Operation was cancelled" }

/-- Modelled from the spec: `new ValidationError(msg)` carries name
`ValidationError` and message `Validation Error: ` ++ msg
(pinned by `errors.test.ts`). -/
def validationError (msg : String) : JSError :=
  { name := "ValidationError", message := "Validation Error: " ++ msg }

/-! ## The Result algebra

Modelled from the spec, section 3 and 4.1 (`result.ts` is not in the
snapshot): a tagged union with exactly one of three states, `Success`,
`Failure`, and `Cancelled` (a distinguished sub-case of Failure carrying a
cancellation-flavored error). -/

/-- Modelled from the spec: the three-state tagged union `Result<V, E>`
(`result.ts` is missing from the snapshot). -/
inductive Result (V E : Type) where
  | ok (value : V)
  | fail (error : E)
  | cancelled (error : E)
deriving DecidableEq, Repr

namespace Result

variable {V V2 V3 E : Type}

/-- Modelled from the spec: the `isSuccess` discriminant. -/
def isSuccess : Result V E → Bool
  | .ok _ => true
  | .fail _ => false
  | .cancelled _ => false

/-- Modelled from the spec: the `isFailure` discriminant; `Cancelled` implies
failure. -/
def isFailure : Result V E → Bool
  | .ok _ => false
  | .fail _ => true
  | .cancelled _ => true

/-- Modelled from the spec: the `isCancelled` discriminant. -/
def isCancelled : Result V E → Bool
  | .ok _ => false
  | .fail _ => false
  | .cancelled _ => true

/-- The error payload of a non-Success result (`none` on Success); used to
state that combinators preserve the error payload. -/
def errorPayload : Result V E → Option E
  | .ok _ => none
  | .fail e => some e
  | .cancelled e => some e

/-- Modelled from the spec: `map(f)` applies `f` on Success and passes any
non-Success input through unchanged.  Lean functions are total, so the
exception-catching branch of the source (a throwing `f` becomes a Failure)
has no inhabitant here; the claims quantify over non-throwing `f`. -/
def map (r : Result V E) (f : V → V2) : Result V2 E :=
  match r with
  | .ok v => .ok (f v)
  | .fail e => .fail e
  | .cancelled e => .cancelled e

/-- Modelled from the spec: `flatMap(f)` returns `f(value)` directly on
Success (no re-wrapping) and passes any non-Success input through. -/
def flatMap (r : Result V E) (f : V → Result V2 E) : Result V2 E :=
  match r with
  | .ok v => f v
  | .fail e => .fail e
  | .cancelled e => .cancelled e

/-- Modelled from the spec: `asyncMap(f, cancelSignal)` as a function of the
eventual outcome.  The signal is its `aborted` state at entry; a pre-cancelled
signal short-circuits to `cancelled()` without invoking `f`; a rejection
inside `f` (the `Except.error` branch) becomes a Failure. -/
def asyncMap (r : Result V JSError) (f : V → Except JSError V2)
    (cancelSignalAborted : Bool) : Result V2 JSError :=
  if cancelSignalAborted then
    .cancelled cancellationError
  else
    match r with
    | .ok v =>
      match f v with
      | .ok w => .ok w
      | .error e => .fail e
    | .fail e => .fail e
    | .cancelled e => .cancelled e

end Result

/-- Modelled from the spec: a settled promise is either fulfilled with a
value or rejected with an error (the core only observes settlement). -/
inductive SettledPromise (V E : Type) where
  | fulfilled (value : V)
  | rejected (error : E)
deriving DecidableEq, Repr

namespace Result

variable {V V2 E : Type}

/-- Modelled from the spec: `toPromise()` fulfills with the success payload
and rejects with the failure error. -/
def toPromise : Result V E → SettledPromise V E
  | .ok v => .fulfilled v
  | .fail e => .rejected e
  | .cancelled e => .rejected e

/-- Modelled from the spec: `fromPromise(promise, cancelSignal)` reflects the
promise's settlement (`ok` on fulfillment, `fail` on rejection) unless the
cancellation signal is aborted, in which case it resolves to `cancelled()`. -/
def fromPromise (p : SettledPromise V JSError) (cancelSignalAborted : Bool) :
    Result V JSError :=
  if cancelSignalAborted then
    .cancelled cancellationError
  else
    match p with
    | .fulfilled v => .ok v
    | .rejected e => .fail e

end Result

/-! ## Instance-identity instrumentation

The spec states that the transforming combinators return a *new* Result
instance while `tap`/`tapError` return *the original Result* unchanged.
Reference identity is made observable by pairing each Result value with an
instance id. -/

/-- A Result value together with its instance identity. -/
structure ResultObj (V E : Type) where
  id : Nat
  state : Result V E
deriving DecidableEq, Repr

namespace ResultObj

variable {V V2 E : Type}

/-- Modelled from the spec: `map` allocates a fresh Result instance
(`freshId`) holding the mapped state; the receiver is not mutated. -/
def mapObj (r : ResultObj V E) (f : V → V2) (freshId : Nat) : ResultObj V2 E :=
  { id := freshId, state := r.state.map f }

/-- Modelled from the spec: `tap(f)` runs `f` for observation only and
"always returns the original Result unchanged" — the receiver itself. -/
def tapObj (r : ResultObj V E) (_f : V → Unit) : ResultObj V E := r

/-- Modelled from the spec: `tapError(f)` likewise returns the receiver
itself. -/
def tapErrorObj (r : ResultObj V E) (_f : E → Unit) : ResultObj V E := r

end ResultObj

/-! ## A model of the JavaScript values the Validator inspects

`Validator` (src/validation.ts) inspects its value with `typeof` checks,
`Array.isArray`, truthiness, member access and string operations.  JS numbers
are IEEE doubles; the claims depend only on the classification into NaN, the
two infinities and finite numbers, so the finite payload is carried as an
integer (only integer literals occur in the claims' inputs). -/

/-- The classification of a JS number that the validator's guards observe. -/
inductive JSNumber where
  | nan
  | posInf
  | negInf
  | finite (val : Int)
deriving DecidableEq, Repr

/-- A JS runtime value: null, undefined, boolean, number, string, array or
plain object (a list of string-keyed fields). -/
inductive JSValue where
  | vNull
  | vUndefined
  | vBool (b : Bool)
  | vNum (n : JSNumber)
  | vStr (s : String)
  | vArr (elems : List JSValue)
  | vObj (fields : List (String × JSValue))
deriving Repr

/-- JS truthiness: `undefined`, `null`, `false`, `0`, `NaN` and the empty
string are falsy, everything else is truthy. -/
def jsTruthy : JSValue → Bool
  | .vNull => false
  | .vUndefined => false
  | .vBool b => b
  | .vNum .nan => false
  | .vNum (.finite v) => v != 0
  | .vNum _ => true
  | .vStr s => s != ""
  | .vArr _ => true
  | .vObj _ => true

/-- First field with the given key, `undefined` when absent — JS property
lookup on a plain object. -/
def lookupField : List (String × JSValue) → String → JSValue
  | [], _ => .vUndefined
  | (k, v) :: rest, name => if k = name then v else lookupField rest name

/-- Plain member access `base[name]`: throws a `TypeError` when the base is
`null` or `undefined`; a data-property lookup on objects; `undefined` for a
plain data property name on any other value. -/
def jsGet (base : JSValue) (name : String) : Except String JSValue :=
  match base with
  | .vNull => .error ("TypeError: Cannot read properties of null (reading " ++ name ++ ")")
  | .vUndefined => .error ("TypeError: Cannot read properties of undefined (reading " ++ name ++ ")")
  | .vObj fields => .ok (lookupField fields name)
  | _ => .ok .vUndefined

/-- Optional-chaining member access `base?.[name]`: `undefined` instead of a
`TypeError` when the base is `null` or `undefined`. -/
def jsGetOptional (base : JSValue) (name : String) : JSValue :=
  match base with
  | .vNull => .vUndefined
  | .vUndefined => .vUndefined
  | .vObj fields => lookupField fields name
  | _ => .vUndefined

/-- `Array.isArray`, returning the elements when the value is an array. -/
def asArray : JSValue → Option (List JSValue)
  | .vArr elems => some elems
  | _ => none

/-! ### String helpers mirroring the JS string operations used by the source

These are defined by structural recursion over the character list so that
closed instances reduce in the kernel. -/

/-- Whether `pat` is a prefix of `hay` (character lists). -/
def charsStartWith : List Char → List Char → Bool
  | _, [] => true
  | [], _ :: _ => false
  | h :: hs, p :: ps => h = p && charsStartWith hs ps

/-- Replace the first occurrence of `pat` in `hay`, JS
`String.prototype.replace` with a string pattern. -/
def charsReplaceFirst : List Char → List Char → List Char → List Char
  | [], _, _ => []
  | h :: hs, pat, rep =>
    if charsStartWith (h :: hs) pat then rep ++ (h :: hs).drop pat.length
    else h :: charsReplaceFirst hs pat rep

/-- JS `hay.replace(pat, rep)` with a string pattern: first occurrence only;
`hay` unchanged when `pat` does not occur. -/
def replaceFirst (hay pat rep : String) : String :=
  ⟨charsReplaceFirst hay.data pat.data rep.data⟩

/-- Whether `pat` occurs as a substring of `hay` (character lists). -/
def charsContain : List Char → List Char → Bool
  | [], pat => pat.isEmpty
  | h :: hs, pat => charsStartWith (h :: hs) pat || charsContain hs pat

/-- JS `hay.includes(pat)`. -/
def strContains (hay pat : String) : Bool :=
  charsContain hay.data pat.data

/-- JS `parts.join(sep)`. -/
def joinWith (sep : String) : List String → String
  | [] => ""
  | [x] => x
  | x :: xs => x ++ sep ++ joinWith sep xs

/-- JS `s.trim()` (the claims only trim ASCII whitespace). -/
def jsTrim (s : String) : String :=
  ⟨((s.data.dropWhile Char.isWhitespace).reverse.dropWhile Char.isWhitespace).reverse⟩

/-- JS `custom || dflt` over the pending custom message: the default is used
when the message is absent or the empty string (falsy). -/
def jsOrMsg (custom : Option String) (dflt : String) : String :=
  match custom with
  | some m => if m = "" then dflt else m
  | none => dflt

/-! ## The Validator embedding (translated from src/validation.ts)

The TS class mutates `_errors`, `_currentPropertyPath` and
`_customErrorMessage` in place; here the instance state is passed explicitly.
`property`/`nested`/`array` can throw a `TypeError` (unguarded member access
on a null/undefined value), so they return `Except String Validator`, the
error being the thrown exception's message.  Leaf rules never throw. -/

/-- The state of a `Validator<T>` instance: `_value`, `_errors`,
`_currentPropertyPath` and `_customErrorMessage`. -/
structure Validator where
  value : JSValue
  errors : List String := []
  currentPropertyPath : List String := []
  customErrorMessage : Option String := none
deriving Repr

namespace Validator

/-- `Validator.for(value)` / `validate(value)`: a fresh validator with empty
errors and path (`for` is reserved in Lean, hence `forValue`). -/
def forValue (value : JSValue) : Validator :=
  { value := value }

/-- The path string `addError` substitutes: the dot-joined
`_currentPropertyPath`, or `"value"` when the stack is empty. -/
def currentPath (v : Validator) : String :=
  if v.currentPropertyPath.length > 0 then joinWith "." v.currentPropertyPath
  else "value"

/-- `addError(errorMessage)`: substitutes `{path}` in the message with the
current path (first occurrence, as JS `replace` with a string pattern),
appends it to `_errors`, and resets `_customErrorMessage` to undefined. -/
def addError (v : Validator) (errorMessage : String) : Validator :=
  { v with
    errors := v.errors ++ [replaceFirst errorMessage "{path}" v.currentPath],
    customErrorMessage := none }

/-- `withMessage(message)`: stores the custom error message for later rules. -/
def withMessage (v : Validator) (message : String) : Validator :=
  { v with customErrorMessage := some message }

/-- `required()`: errors when the value is null or undefined. -/
def required (v : Validator) : Validator :=
  match v.value with
  | .vNull => v.addError (jsOrMsg v.customErrorMessage "{path} is required")
  | .vUndefined => v.addError (jsOrMsg v.customErrorMessage "{path} is required")
  | _ => v

/-- `notEmpty()`: errors when the value is a string whose trim is empty. -/
def notEmpty (v : Validator) : Validator :=
  match v.value with
  | .vStr s =>
    if jsTrim s = "" then v.addError (jsOrMsg v.customErrorMessage "{path} cannot be empty")
    else v
  | _ => v

/-- `isNumber()`: errors when `typeof value !== 'number' || Number.isNaN(value)`. -/
def isNumber (v : Validator) : Validator :=
  match v.value with
  | .vNum n =>
    if n = .nan then v.addError (jsOrMsg v.customErrorMessage "{path} must be a number")
    else v
  | _ => v.addError (jsOrMsg v.customErrorMessage "{path} must be a number")

/-- `matches(pattern)`: errors when the value is a string the pattern does not
match.  A compiled `RegExp` is its `test` function, modelled as a boolean
predicate on strings. -/
def matchesRule (v : Validator) (test : String → Bool) : Validator :=
  match v.value with
  | .vStr s =>
    if test s = false then
      v.addError (jsOrMsg v.customErrorMessage "{path} does not match the required pattern")
    else v
  | _ => v

/-- `property(propertyName, validationFn)`: reads `value[propertyName]`
(throwing on a null/undefined receiver), pushes the property name, runs
`validationFn` on a fresh child validator over the property value, appends
the child's errors with `{path}` substituted by the dot-joined current path,
then pops. -/
def property (v : Validator) (propertyName : String)
    (validationFn : Validator → Except String Validator) : Except String Validator := do
  let propertyValue ← jsGet v.value propertyName
  let v1 : Validator :=
    { v with currentPropertyPath := v.currentPropertyPath ++ [propertyName] }
  let propertyValidator ← validationFn (forValue propertyValue)
  let v2 : Validator :=
    { v1 with
      errors := v1.errors ++ propertyValidator.errors.map
        (fun e => replaceFirst e "{path}" (joinWith "." v1.currentPropertyPath)) }
  return { v2 with currentPropertyPath := v.currentPropertyPath }

/-- `nested(propertyName, validationFn)`: alias of `property`. -/
def nested (v : Validator) (propertyName : String)
    (validationFn : Validator → Except String Validator) : Except String Validator :=
  v.property propertyName validationFn

/-- The `property.forEach((item, index) => ...)` loop of `array`: pushes
`[index]`, validates the item on a fresh child validator, appends the child's
errors with `{path}` substituted by the dot-joined current path, pops, and
continues with the next index. -/
def arrayAux (itemFn : Validator → Except String Validator) :
    List JSValue → Nat → Validator → Except String Validator
  | [], _, v => .ok v
  | item :: rest, index, v => do
    let v1 : Validator :=
      { v with currentPropertyPath :=
          v.currentPropertyPath ++ ["[" ++ toString index ++ "]"] }
    let itemValidator ← itemFn (forValue item)
    let v2 : Validator :=
      { v1 with
        errors := v1.errors ++ itemValidator.errors.map
          (fun e => replaceFirst e "{path}" (joinWith "." v1.currentPropertyPath)) }
    arrayAux itemFn rest (index + 1)
      { v2 with currentPropertyPath := v.currentPropertyPath }

/-- `array(propertyName, itemFn)`: reads `value?.[propertyName]`; a falsy
property records a missing-or-null error and returns early; a truthy
non-array records a not-an-array error and returns early; otherwise pushes
the property name, runs the indexed element loop, and pops. -/
def array (v : Validator) (propertyName : String)
    (itemFn : Validator → Except String Validator) : Except String Validator :=
  let property := jsGetOptional v.value propertyName
  if jsTruthy property = false then
    .ok (v.addError ("Property \x27" ++ propertyName ++ "\x27 is missing or null"))
  else
    match asArray property with
    | none => .ok (v.addError ("Property \x27" ++ propertyName ++ "\x27 is not an array"))
    | some elems => do
      let v1 : Validator :=
        { v with currentPropertyPath := v.currentPropertyPath ++ [propertyName] }
      let v2 ← arrayAux itemFn elems 0 v1
      return { v2 with currentPropertyPath := v.currentPropertyPath }

/-- `validate()`: `ok(value)` when no errors accumulated, otherwise
`fail(new ValidationError(errors.join(', ')))`. -/
def validate (v : Validator) : Result JSValue JSError :=
  if v.errors.length = 0 then Result.ok v.value
  else Result.fail (validationError (joinWith ", " v.errors))

end Validator

/-- The `test` function of the compiled regular expression `^\d{5}$` used in
the nested-path scenario: exactly five ASCII digits. -/
def regexFiveDigits (s : String) : Bool :=
  s.length = 5 && s.data.all Char.isDigit

/-- The guard of `isNumber` as a predicate on the value:
`typeof value === 'number' && !Number.isNaN(value)`. -/
def isNumberTypeNonNaN : JSValue → Bool
  | .vNum .nan => false
  | .vNum _ => true
  | _ => false

/-- The errors contributed by the element loop of `array` for a non-throwing
item validator `g`: for each element, in index order, the child validator's
errors with `{path}` substituted by the dot-joined base path extended with
`[index]`. -/
def elementErrors (g : Validator → Validator) (basePath : List String) :
    List JSValue → Nat → List String
  | [], _ => []
  | item :: rest, index =>
    (g (Validator.forValue item)).errors.map
        (fun e => replaceFirst e "{path}"
          (joinWith "." (basePath ++ ["[" ++ toString index ++ "]"])))
      ++ elementErrors g basePath rest (index + 1)

/-! ## Claims about the Result algebra (spec-modelled: `result.ts` is not in
the snapshot; only its tests are) -/

/-- C4: `flatMap` together with `ok` satisfies the monad laws: left unit
(`ok(x).flatMap(f) = f(x)`), right unit (`r.flatMap(ok) = r`) and
associativity. -/
theorem c4_monad_laws :
    (∀ (V V2 E : Type) (x : V) (f : V → Result V2 E),
      (Result.ok x).flatMap f = f x)
  ∧ (∀ (V E : Type) (r : Result V E), r.flatMap Result.ok = r)
  ∧ (∀ (V V2 V3 E : Type) (r : Result V E) (f : V → Result V2 E)
      (g : V2 → Result V3 E),
      (r.flatMap f).flatMap g = r.flatMap (fun x => (f x).flatMap g)) := by
  refine ⟨fun _ _ _ x f => rfl, fun _ _ r => ?_, fun _ _ _ _ r f g => ?_⟩ <;>
    cases r <;> rfl

/-- C5: Failure short-circuit: on a Failure or Cancelled result, `map` and
`flatMap` keep the discriminant (`isSuccess`/`isFailure`/`isCancelled`) and
the error payload, and the supplied function is never invoked (the output
does not depend on it). -/
theorem c5_failure_short_circuit {V V2 E : Type} (r : Result V E)
    (f g : V → V2) (fm gm : V → Result V2 E) (h : r.isSuccess = false) :
    (r.map f).isSuccess = false
  ∧ (r.map f).isFailure = r.isFailure
  ∧ (r.map f).isCancelled = r.isCancelled
  ∧ (r.map f).errorPayload = r.errorPayload
  ∧ r.map f = r.map g
  ∧ (r.flatMap fm).isSuccess = false
  ∧ (r.flatMap fm).isFailure = r.isFailure
  ∧ (r.flatMap fm).isCancelled = r.isCancelled
  ∧ (r.flatMap fm).errorPayload = r.errorPayload
  ∧ r.flatMap fm = r.flatMap gm := by
  cases r with
  | ok v => simp [Result.isSuccess] at h
  | fail e => exact ⟨rfl, rfl, rfl, rfl, rfl, rfl, rfl, rfl, rfl, rfl⟩
  | cancelled e => exact ⟨rfl, rfl, rfl, rfl, rfl, rfl, rfl, rfl, rfl, rfl⟩

/-- Witness for C5 at the concrete Failure `fail "boom"`. -/
theorem c5_failure_short_circuit_witness :
    ((Result.fail "boom" : Result Nat String).map (fun n => n + 1)).isSuccess = false
  ∧ ((Result.fail "boom" : Result Nat String).map (fun n => n + 1)).isFailure
      = (Result.fail "boom" : Result Nat String).isFailure
  ∧ ((Result.fail "boom" : Result Nat String).map (fun n => n + 1)).isCancelled
      = (Result.fail "boom" : Result Nat String).isCancelled
  ∧ ((Result.fail "boom" : Result Nat String).map (fun n => n + 1)).errorPayload
      = (Result.fail "boom" : Result Nat String).errorPayload
  ∧ (Result.fail "boom" : Result Nat String).map (fun n => n + 1)
      = (Result.fail "boom" : Result Nat String).map (fun n => n * 2)
  ∧ ((Result.fail "boom" : Result Nat String).flatMap (fun n => Result.ok (n + 1))).isSuccess = false
  ∧ ((Result.fail "boom" : Result Nat String).flatMap (fun n => Result.ok (n + 1))).isFailure
      = (Result.fail "boom" : Result Nat String).isFailure
  ∧ ((Result.fail "boom" : Result Nat String).flatMap (fun n => Result.ok (n + 1))).isCancelled
      = (Result.fail "boom" : Result Nat String).isCancelled
  ∧ ((Result.fail "boom" : Result Nat String).flatMap (fun n => Result.ok (n + 1))).errorPayload
      = (Result.fail "boom" : Result Nat String).errorPayload
  ∧ (Result.fail "boom" : Result Nat String).flatMap (fun n => Result.ok (n + 1))
      = (Result.fail "boom" : Result Nat String).flatMap (fun _ => Result.fail "x") :=
  c5_failure_short_circuit (Result.fail "boom") (fun n => n + 1) (fun n => n * 2)
    (fun n => Result.ok (n + 1)) (fun _ => Result.fail "x") rfl

/-- C6: `asyncMap` on a Success result with an already-aborted cancellation
signal resolves to a cancelled (not successful) Result without invoking the
mapper (the output does not depend on it). -/
theorem c6_asyncMap_pre_aborted {V V2 : Type} (r : Result V JSError)
    (f g : V → Except JSError V2) (_h : r.isSuccess = true) :
    (r.asyncMap f true).isCancelled = true
  ∧ (r.asyncMap f true).isSuccess = false
  ∧ r.asyncMap f true = r.asyncMap g true :=
  ⟨rfl, rfl, rfl⟩

/-- Witness for C6 at `ok 42` with two different mappers. -/
theorem c6_asyncMap_pre_aborted_witness :
    ((Result.ok 42 : Result Nat JSError).asyncMap
        (fun n => Except.ok (n * 2)) true).isCancelled = true
  ∧ ((Result.ok 42 : Result Nat JSError).asyncMap
        (fun n => Except.ok (n * 2)) true).isSuccess = false
  ∧ (Result.ok 42 : Result Nat JSError).asyncMap (fun n => Except.ok (n * 2)) true
      = (Result.ok 42 : Result Nat JSError).asyncMap (fun n => Except.ok (n + 1)) true :=
  c6_asyncMap_pre_aborted (Result.ok 42) (fun n => Except.ok (n * 2))
    (fun n => Except.ok (n + 1)) rfl

/-- C8: toPromise/fromPromise round-trip: `fromPromise(ok(v).toPromise())`
resolves to `ok(v)` and `fromPromise(fail(e).toPromise())` to `fail(e)`. -/
theorem c8_promise_round_trip {V : Type} (v : V) (e : JSError) :
    Result.fromPromise (Result.toPromise (Result.ok v : Result V JSError)) false
      = Result.ok v
  ∧ Result.fromPromise (Result.toPromise (Result.fail e : Result V JSError)) false
      = Result.fail e :=
  ⟨rfl, rfl⟩

/-- C9 counterexample: `tap` does not return a Result instance distinct from
the receiver — it returns the receiver itself (spec: "always returns the
original Result unchanged"), here visible as the unchanged instance id. -/
theorem c9_tap_same_instance :
    ResultObj.tapObj ({ id := 0, state := Result.ok 1 } : ResultObj Nat String)
        (fun _ => ())
      = ({ id := 0, state := Result.ok 1 } : ResultObj Nat String) :=
  rfl

/-- C9 amended: a transforming combinator (`map`) returns a freshly allocated
Result whose state is the mapped state of the receiver, hence a distinct
instance whenever the fresh id is new, while `tap` and `tapError` return the
original instance itself; no combinator changes the receiver's state. -/
theorem c9_frame_and_freshness {V E : Type} (r : ResultObj V E) (f : V → V)
    (tf : V → Unit) (te : E → Unit) (freshId : Nat) (h : freshId ≠ r.id) :
    (r.mapObj f freshId).id = freshId
  ∧ (r.mapObj f freshId).state = r.state.map f
  ∧ r.mapObj f freshId ≠ r
  ∧ r.tapObj tf = r
  ∧ r.tapErrorObj te = r := by
  refine ⟨rfl, rfl, ?_, rfl, rfl⟩
  intro hEq
  exact h (congrArg ResultObj.id hEq)

/-- Witness for C9 amended at a concrete Success object and fresh id 1. -/
theorem c9_frame_and_freshness_witness :
    (ResultObj.mapObj ({ id := 0, state := Result.ok 1 } : ResultObj Nat String)
        (fun n => n + 1) 1).id = 1
  ∧ (ResultObj.mapObj ({ id := 0, state := Result.ok 1 } : ResultObj Nat String)
        (fun n => n + 1) 1).state
      = ({ id := 0, state := Result.ok 1 } : ResultObj Nat String).state.map (fun n => n + 1)
  ∧ ResultObj.mapObj ({ id := 0, state := Result.ok 1 } : ResultObj Nat String)
        (fun n => n + 1) 1
      ≠ ({ id := 0, state := Result.ok 1 } : ResultObj Nat String)
  ∧ ResultObj.tapObj ({ id := 0, state := Result.ok 1 } : ResultObj Nat String)
        (fun _ => ())
      = ({ id := 0, state := Result.ok 1 } : ResultObj Nat String)
  ∧ ResultObj.tapErrorObj ({ id := 0, state := Result.ok 1 } : ResultObj Nat String)
        (fun _ => ())
      = ({ id := 0, state := Result.ok 1 } : ResultObj Nat String) :=
  c9_frame_and_freshness ({ id := 0, state := Result.ok 1 } : ResultObj Nat String)
    (fun n => n + 1) (fun _ => ()) (fun _ => ()) 1 (by decide)

/-! ## Claims about the Validator (translated from src/validation.ts) -/

/-- C1: evaluation at the failing input `{ address: { zipCode: "abc" } }`
with `.nested('address', a => a.property('zipCode', z => z.matches(/^\d{5}$/)))`:
the leaf rule records its error inside a fresh child validator whose path
stack is empty, so `addError` substitutes `{path}` with `"value"` at that
point and the parent's substitution in `property` finds no placeholder left;
the resulting failure message is `value does not match the required pattern`
and does not contain `address.zipCode`. -/
theorem c1_nested_path_eval :
    Except.map Validator.validate
        (Validator.nested
          (Validator.forValue (.vObj [("address", .vObj [("zipCode", .vStr "abc")])]))
          "address"
          (fun a => a.property "zipCode" (fun z => .ok (z.matchesRule regexFiveDigits))))
      = .ok (Result.fail (validationError "value does not match the required pattern"))
  ∧ strContains "Validation Error: value does not match the required pattern"
      "address.zipCode" = false :=
  ⟨rfl, rfl⟩

/-- C3 counterexample: `.withMessage("custom")` followed by the passing rule
`required` and then the failing rule `notEmpty` on the empty string records
`"custom"` — the pending message was not cleared by the passing rule, and the
failing rule does not use its own default template. -/
theorem c3_pending_message_counterexample :
    ((((Validator.forValue (.vStr "")).withMessage "custom").required).notEmpty).errors
      = ["custom"]
  ∧ "custom" ≠ "value cannot be empty" :=
  ⟨rfl, by decide⟩

/-- C3 amended: a pending custom message persists through a passing rule
(here `required` on a defined value) and is consumed by the next failing rule
(here `notEmpty` on a blank string), which records the custom message
(path-substituted) and clears the pending message. -/
theorem c3_pending_message_persists (v : Validator) (m : String)
    (hm : m ≠ "") (hv : v.value = .vStr "") :
    ((((v.withMessage m).required).notEmpty).errors
        = v.errors ++ [replaceFirst m "{path}" v.currentPath])
  ∧ (((v.withMessage m).required).notEmpty).customErrorMessage = none := by
  obtain ⟨val, errs, path, cm⟩ := v
  cases hv
  constructor <;>
    simp [Validator.withMessage, Validator.required, Validator.notEmpty,
      Validator.addError, Validator.currentPath, jsTrim, jsOrMsg, hm]

/-- Witness for C3 amended at the empty-string value and message `custom`. -/
theorem c3_pending_message_persists_witness :
    ((((Validator.forValue (.vStr "")).withMessage "custom").required).notEmpty).errors
      = (Validator.forValue (.vStr "")).errors
        ++ [replaceFirst "custom" "{path}" (Validator.forValue (.vStr "")).currentPath]
  ∧ ((((Validator.forValue (.vStr "")).withMessage "custom").required).notEmpty).customErrorMessage
      = none :=
  c3_pending_message_persists (Validator.forValue (.vStr "")) "custom" (by decide) rfl

/-- C7 counterexample: `isNumber` records no error on `Infinity` and
`-Infinity`, although they are not finite numbers. -/
theorem c7_isNumber_infinity_counterexample :
    ((Validator.forValue (.vNum .posInf)).isNumber).errors = []
  ∧ ((Validator.forValue (.vNum .negInf)).isNumber).errors = [] :=
  ⟨rfl, rfl⟩

/-- C7 amended: `isNumber` records an error exactly when the value is not of
JS number type or is NaN; the non-finite numbers `Infinity` and `-Infinity`
pass without an error, while NaN records one. -/
theorem c7_isNumber_guard (v : Validator) :
    (v.isNumber.errors = v.errors ↔ isNumberTypeNonNaN v.value = true)
  ∧ (v.value = .vNum .posInf ∨ v.value = .vNum .negInf → v.isNumber = v)
  ∧ (v.value = .vNum .nan →
      v.isNumber.errors = v.errors
        ++ [replaceFirst (jsOrMsg v.customErrorMessage "{path} must be a number")
            "{path}" v.currentPath]) := by
  obtain ⟨val, errs, path, cm⟩ := v
  refine ⟨?_, ?_, ?_⟩
  · cases val with
    | vNum n =>
      cases n <;>
        simp [Validator.isNumber, Validator.addError, isNumberTypeNonNaN]
    | _ => simp [Validator.isNumber, Validator.addError, isNumberTypeNonNaN]
  · rintro (h | h) <;> cases h <;> rfl
  · intro h; cases h; rfl

/-- Witness for C7 amended at `Infinity` (no error) and `NaN` (one error). -/
theorem c7_isNumber_guard_witness :
    (Validator.forValue (.vNum .posInf)).isNumber = Validator.forValue (.vNum .posInf)
  ∧ ((Validator.forValue (.vNum .nan)).isNumber).errors
      = (Validator.forValue (.vNum .nan)).errors
        ++ [replaceFirst
            (jsOrMsg (Validator.forValue (.vNum .nan)).customErrorMessage
              "{path} must be a number")
            "{path}" (Validator.forValue (.vNum .nan)).currentPath] :=
  ⟨(c7_isNumber_guard (Validator.forValue (.vNum .posInf))).2.1 (Or.inl rfl),
   (c7_isNumber_guard (Validator.forValue (.vNum .nan))).2.2 rfl⟩

/-- C10: on a null or undefined value, `array` completes normally and records
the missing-or-null error (its property read is null-guarded by optional
chaining), whereas `property` throws a TypeError — it never returns a
validator (so no error is recorded), and the outcome does not depend on the
supplied validation function (which is never invoked). -/
theorem c10_null_value_array_vs_property (val : JSValue)
    (h : val = .vNull ∨ val = .vUndefined) (name : String)
    (fn fn2 : Validator → Except String Validator) :
    Validator.array (Validator.forValue val) name fn
      = .ok ((Validator.forValue val).addError
          ("Property \x27" ++ name ++ "\x27 is missing or null"))
  ∧ (∀ w, Validator.property (Validator.forValue val) name fn ≠ .ok w)
  ∧ Validator.property (Validator.forValue val) name fn
      = Validator.property (Validator.forValue val) name fn2 := by
  rcases h with h | h
  · subst h
    refine ⟨rfl, ?_, rfl⟩
    intro w hw
    have hred : Validator.property (Validator.forValue .vNull) name fn
        = Except.error
            ("TypeError: Cannot read properties of null (reading " ++ name ++ ")") := rfl
    rw [hred] at hw
    exact Except.noConfusion hw
  · subst h
    refine ⟨rfl, ?_, rfl⟩
    intro w hw
    have hred : Validator.property (Validator.forValue .vUndefined) name fn
        = Except.error
            ("TypeError: Cannot read properties of undefined (reading " ++ name ++ ")") := rfl
    rw [hred] at hw
    exact Except.noConfusion hw

/-- Witness for C10 at the concrete null value and property name `items`. -/
theorem c10_null_value_witness :
    Validator.array (Validator.forValue .vNull) "items" Except.ok
      = .ok ((Validator.forValue .vNull).addError
          ("Property \x27" ++ "items" ++ "\x27 is missing or null"))
  ∧ Validator.property (Validator.forValue .vNull) "items" Except.ok
      = Validator.property (Validator.forValue .vNull) "items"
          (fun w => .ok w.notEmpty) :=
  ⟨(c10_null_value_array_vs_property .vNull (Or.inl rfl) "items" Except.ok
      (fun w => .ok w.notEmpty)).1,
   (c10_null_value_array_vs_property .vNull (Or.inl rfl) "items" Except.ok
      (fun w => .ok w.notEmpty)).2.2⟩

/-- The element loop of `array` with a non-throwing item validator `g`
appends, in index order, each element's substituted errors; the path stack
and the rest of the state are left unchanged. -/
theorem arrayAux_pure (g : Validator → Validator) (items : List JSValue) :
    ∀ (index : Nat) (v : Validator),
      Validator.arrayAux (fun w => .ok (g w)) items index v
        = .ok { v with errors :=
            v.errors ++ elementErrors g v.currentPropertyPath items index } := by
  induction items with
  | nil =>
    intro index v
    simp [Validator.arrayAux, elementErrors]
  | cons item rest ih =>
    intro index v
    rw [Validator.arrayAux]
    simp only [Bind.bind, Except.bind]
    rw [ih]
    simp [elementErrors, List.append_assoc]

/-- C2 counterexample: `{ items: 0 }` — the property is present (defined) and
is not an array, yet `array` records the missing-or-null error, not the
not-an-array error: the early-return guard is JS truthiness (`!property`),
not a missing/null test. -/
theorem c2_array_falsy_counterexample :
    Validator.array (Validator.forValue (.vObj [("items", .vNum (.finite 0))]))
        "items" Except.ok
      = .ok ((Validator.forValue (.vObj [("items", .vNum (.finite 0))])).addError
          ("Property \x27" ++ "items" ++ "\x27 is missing or null"))
  ∧ ("Property \x27" ++ "items" ++ "\x27 is missing or null")
      ≠ ("Property \x27" ++ "items" ++ "\x27 is not an array") :=
  ⟨rfl, by decide⟩

/-- C2 amended: `array(name, itemFn)` records the missing-or-null error and
returns early (without invoking `itemFn` — the outcome does not depend on it)
exactly when `value[name]` is *falsy* (missing, null, undefined, false, 0,
NaN or the empty string); it records the not-an-array error and returns early
when `value[name]` is truthy but not an array; otherwise it visits every
element in index order, appending each element's substituted errors. -/
theorem c2_array_branches (v : Validator) (name : String)
    (itemFn : Validator → Except String Validator) (g : Validator → Validator)
    (items : List JSValue) :
    (jsTruthy (jsGetOptional v.value name) = false →
      Validator.array v name itemFn
        = .ok (v.addError ("Property \x27" ++ name ++ "\x27 is missing or null")))
  ∧ (jsTruthy (jsGetOptional v.value name) = true →
      asArray (jsGetOptional v.value name) = none →
      Validator.array v name itemFn
        = .ok (v.addError ("Property \x27" ++ name ++ "\x27 is not an array")))
  ∧ (jsGetOptional v.value name = .vArr items →
      Validator.array v name (fun w => .ok (g w))
        = .ok { v with errors := v.errors
            ++ elementErrors g (v.currentPropertyPath ++ [name]) items 0 }) := by
  refine ⟨?_, ?_, ?_⟩
  · intro hfalsy
    rw [Validator.array]
    simp [hfalsy]
  · intro htruthy hnone
    rw [Validator.array]
    simp [htruthy, hnone]
  · intro harr
    rw [Validator.array]
    simp only [harr, jsTruthy, asArray]
    rw [arrayAux_pure]
    rfl

/-- Witness for C2 amended at `{ items: null }` (missing-or-null branch),
`{ items: "hello" }` (not-an-array branch) and `{ items: ["", "x"] }`
(element loop with `notEmpty`). -/
theorem c2_array_branches_witness :
    Validator.array (Validator.forValue (.vObj [("items", .vNull)])) "items" Except.ok
      = .ok ((Validator.forValue (.vObj [("items", .vNull)])).addError
          ("Property \x27" ++ "items" ++ "\x27 is missing or null"))
  ∧ Validator.array (Validator.forValue (.vObj [("items", .vStr "hello")])) "items" Except.ok
      = .ok ((Validator.forValue (.vObj [("items", .vStr "hello")])).addError
          ("Property \x27" ++ "items" ++ "\x27 is not an array"))
  ∧ Validator.array (Validator.forValue (.vObj [("items", .vArr [.vStr "", .vStr "x"])]))
        "items" (fun w => .ok (Validator.notEmpty w))
      = .ok { Validator.forValue (.vObj [("items", .vArr [.vStr "", .vStr "x"])]) with
          errors :=
            (Validator.forValue (.vObj [("items", .vArr [.vStr "", .vStr "x"])])).errors
            ++ elementErrors Validator.notEmpty
                ((Validator.forValue
                    (.vObj [("items", .vArr [.vStr "", .vStr "x"])])).currentPropertyPath
                  ++ ["items"])
                [.vStr "", .vStr "x"] 0 } :=
  ⟨(c2_array_branches (Validator.forValue (.vObj [("items", .vNull)])) "items"
      Except.ok Validator.notEmpty []).1 rfl,
   (c2_array_branches (Validator.forValue (.vObj [("items", .vStr "hello")])) "items"
      Except.ok Validator.notEmpty []).2.1 rfl rfl,
   (c2_array_branches (Validator.forValue (.vObj [("items", .vArr [.vStr "", .vStr "x"])]))
      "items" Except.ok Validator.notEmpty [.vStr "", .vStr "x"]).2.2 rfl⟩
